import Mathlib

/-!
Shallow embedding of the content-to-presentation core of the Neo42/blog
repository: the presentational React components (`PostPreview`, `Intro`),
the MDX component registry with its `Hike` configuration merging
(`src/components/mdx-components.js`), and the content front matter of the
posts under `src/posts/`.

JSX elements are modelled as a tree (`Markup`); external components
(`Link` from next/link, `DateFormatter`, the Code Hike renderers) appear
in the tree as elements bearing the component's name and carrying their
props, which is exactly what the JSX in the source produces (a React
element referencing the component).  JavaScript values that flow through
props are modelled by `JsVal`; JavaScript objects (used for the `config`
and `editorProps` merging) are association lists in insertion order, where
a later entry for the same key overrides an earlier one, matching object
literal spread semantics.
-/

namespace Blog

/-- A JavaScript value as it occurs in the props handled by this code:
`undefined`, `null`, booleans, numbers, strings and plain objects. -/
inductive JsVal where
  | undefined
  | null
  | bool (b : Bool)
  | num (n : Int)
  | str (s : String)
  | obj (fields : List (String × JsVal))

/-- A JavaScript object literal: fields in insertion order; a later entry
for the same key overrides an earlier one (object spread semantics). -/
abbrev JsObj := List (String × JsVal)

/-- Key lookup in a `JsObj`: the value of the LAST entry with the given
key, as in a JavaScript object built by spreads (later wins). -/
def getKey : JsObj → String → Option JsVal
  | [], _ => none
  | (k, v) :: rest, key =>
    match getKey rest key with
    | some v' => some v'
    | none => if k = key then some v else none

/-- A rendered element tree: text nodes and elements with a tag,
attributes (props) and children. -/
inductive Markup where
  | text (s : String)
  | elem (tag : String) (attrs : JsObj) (children : List Markup)

/-- JSX child rendering of an optional string prop: `{title}` with
`title` a string renders the string, with `title` undefined it renders
nothing. -/
def jsxText : Option String → List Markup
  | some s => [.text s]
  | none => []

/-- JavaScript template-literal interpolation of an optional string:
an undefined variable interpolates as the string "undefined". -/
def jsTemplate : Option String → String
  | some s => s
  | none => "undefined"

/-- The `JsVal` a possibly-missing string prop passes through JSX:
`dateString={date}` passes `undefined` when `date` is missing. -/
def optVal : Option String → JsVal
  | some s => .str s
  | none => .undefined

/-- The props of `PostPreview` (src/components/post-preview.js line 5):
`{title, date, excerpt, author, slug}`.  The string-valued fields may be
missing (`none` = absent/undefined); `author` is an arbitrary JavaScript
value (in the content it is an object with `name` and `picture`). -/
structure PostPreviewProps where
  title : Option String
  date : Option String
  excerpt : Option String
  author : JsVal
  slug : Option String

/-- src/components/post-preview.js lines 5-20: the preview block.  The
`Avatar` line (line 17) is commented out in the source, so `author` is
never used. -/
def PostPreview (p : PostPreviewProps) : Markup :=
  .elem "div" [("className", .str "my-40")]
    [ .elem "h3" [("className", .str "mb-3 text-3xl font-bold leading-snug")]
        [ .elem "Link"
            [ ("as", .str ("/posts/" ++ jsTemplate p.slug)),
              ("href", .str "/posts/[slug]"),
              ("className", .str "hover:underline") ]
            (jsxText p.title) ],
      .elem "div" [("className", .str "mb-4 text-lg")]
        [ .elem "DateFormatter" [("dateString", optVal p.date)] [] ],
      .elem "p" [("className", .str "mb-4 text-lg leading-relaxed")]
        (jsxText p.excerpt) ]

/-- src/components/intro.js: the constant intro banner. -/
def Intro : Markup :=
  .elem "section"
    [("className", .str "flex flex-col items-center mt-16 mb-16 md:flex-row md:justify-between md:mb-12")]
    [ .elem "h1"
        [("className", .str "text-6xl font-bold leading-tight tracking-tighter md:text-8xl md:pr-8")]
        [.text "Blog."],
      .elem "h4"
        [("className", .str "mt-5 text-lg text-center md:text-left md:pl-8")]
        [ .text "by ",
          .elem "a"
            [ ("href", .str "https://github.com/Neo42"),
              ("className", .str "underline transition-colors duration-200 hover:text-success") ]
            [.text "Johnny Jiang"] ] ]

/-- String coercion of a `JsVal`, as used when serializing an attribute. -/
def jsString : JsVal → String
  | .undefined => "undefined"
  | .null => "null"
  | .bool true => "true"
  | .bool false => "false"
  | .num n => toString n
  | .str s => s
  | .obj _ => "[object Object]"

mutual

/-- The target paths of the post links in a tree: the `as` prop of each
`Link` element (next/link's `as` is the path the browser navigates to;
`href` holds the route pattern `/posts/[slug]`). -/
def linkTargets : Markup → List String
  | .text _ => []
  | .elem tag attrs children =>
    (if tag = "Link" then
      match getKey attrs "as" with
      | some (.str s) => [s]
      | _ => []
     else []) ++ linkTargetsList children

def linkTargetsList : List Markup → List String
  | [] => []
  | m :: ms => linkTargets m ++ linkTargetsList ms

end

mutual

/-- The concatenated text content of a tree. -/
def textContent : Markup → String
  | .text s => s
  | .elem _ _ children => textContentList children

def textContentList : List Markup → String
  | [] => ""
  | m :: ms => textContent m ++ textContentList ms

end

/-- Serialize an attribute list. -/
def renderAttrs : JsObj → String
  | [] => ""
  | (k, v) :: rest => " " ++ k ++ "=\"" ++ jsString v ++ "\"" ++ renderAttrs rest

mutual

/-- Byte-level serialization of a tree to markup text. -/
def renderMarkup : Markup → String
  | .text s => s
  | .elem tag attrs children =>
    "<" ++ tag ++ renderAttrs attrs ++ ">" ++ renderMarkupList children ++ "</" ++ tag ++ ">"

def renderMarkupList : List Markup → String
  | [] => ""
  | m :: ms => renderMarkup m ++ renderMarkupList ms

end

/-- Whether a tree is the PostPreview block: a `div.my-40` whose three
children are the heading, the date wrapper and the excerpt paragraph. -/
def previewBlockShape : Markup → Bool
  | .elem "div" [("className", .str "my-40")]
      [.elem "h3" _ _, .elem "div" _ _, .elem "p" _ _] => true
  | _ => false

mutual

/-- Whether an element with the given tag occurs in a tree. -/
def containsTag (t : String) : Markup → Bool
  | .text _ => false
  | .elem tag _ children => tag == t || containsTagList t children

def containsTagList (t : String) : List Markup → Bool
  | [] => false
  | m :: ms => containsTag t m || containsTagList t ms

end

/-! ### The MDX component registry (src/components/mdx-components.js) -/

/-- src/components/mdx-components.js lines 12-18: the `classes` table
passed to the Code Hike renderer. -/
def classes : List (String × String) :=
  [ ("ch-hike-step-content-unfocused", "opacity-25 transition-opacity"),
    ("ch-hike-step-content", "border-none"),
    ("ch-frame-button", "bg-button-bg border-button-bg"),
    ("ch-frame-title-bar", "bg-editor-bg"),
    ("ch-editor-tab", "border-none bg-editor-bg") ]

/-- src/components/mdx-components.js lines 20-27: the sandbox preset. -/
def preset : JsObj :=
  [ ("template", .str "react"),
    ("customSetup", .obj
      [("dependencies", .obj [("react-svg-curve", .str "0.2.0")])]) ]

/-- src/components/mdx-components.js lines 36-39: `Hike`'s
`defaultConfig`. -/
def defaultConfig : JsObj :=
  [ ("noPreview", .bool false),
    ("defaultFileName", .str "App.js") ]

/-- The props reaching `Hike` (`function Hike({config, ...props})`):
the destructured `config` prop (absent = `none`), the `editorProps`
prop (read on line 33 and overridden on line 47, so tracked apart),
and the remaining rest props, forwarded unchanged. -/
structure HikeProps where
  config : Option JsObj
  editorProps : Option JsObj
  rest : JsObj

/-- The props object `Hike` hands to the external `HikeSteps` renderer
(src/components/mdx-components.js lines 41-49): the React element
`<HikeSteps classes=… config=… preset=… {...props} editorProps=… />`. -/
structure HikeStepsCall where
  classes : List (String × String)
  config : JsObj
  preset : JsObj
  rest : JsObj
  editorProps : JsObj

/-- Spreading a possibly-absent object: `{...undefinedined}` adds nothing. -/
def spreadOpt : Option JsObj → JsObj
  | some o => o
  | none => []

/-- src/components/mdx-components.js lines 29-50: `Hike` merges the
editor props (lines 30-34: defaults then `...props.editorProps`) and the
config (line 44: `{...defaultConfig, ...config}`) and delegates to
`HikeSteps`. -/
def Hike (p : HikeProps) : HikeStepsCall :=
  { classes := classes
    config := defaultConfig ++ spreadOpt p.config
    preset := preset
    rest := p.rest
    editorProps :=
      [ ("codeProps", .obj [("minColumns", .num 40)]),
        ("frameProps", .obj [("button", .null)]) ] ++ spreadOpt p.editorProps }

/-- src/components/mdx-components.js lines 52-54:
`HikeWithPreview(props)` returns `<Hike {...props} />`: every prop is
forwarded unchanged and nothing is added. -/
def HikeWithPreview (p : HikeProps) : HikeStepsCall :=
  Hike { config := p.config, editorProps := p.editorProps, rest := p.rest }

/-- src/components/mdx-components.js lines 56-58:
`HikeWithNoPreview(props)` returns
`<Hike config={{noPreview: true}} {...props} />`.  The spread comes
AFTER the explicit `config` attribute, so a `config` prop present in
`props` overrides `{noPreview: true}`; only when `props` has no `config`
key does `{noPreview: true}` survive. -/
def HikeWithNoPreview (p : HikeProps) : HikeStepsCall :=
  Hike
    { config := some (p.config.getD [("noPreview", JsVal.bool true)]),
      editorProps := p.editorProps,
      rest := p.rest }

/-- The renderers registered in the `components` map.  Their
implementations (`CodeBlock`, `withFocusHandler(CustomLink)`, the Code
Hike exports) are external or live in other files; each is identified
here by which registry entry it is. -/
inductive Renderer where
  | codeBlock
  | customLinkWithFocus
  | hike
  | hikeWithPreview
  | hikeWithNoPreview
  | focus
  | stepHead
  | codeSlot
  | previewSlot
deriving DecidableEq

/-- src/components/mdx-components.js lines 60-71: the exported
`components` registry, key by key in source order. -/
def components : List (String × Renderer) :=
  [ ("pre", .codeBlock),
    ("a", .customLinkWithFocus),
    ("Hike", .hike),
    ("HikeWithPreview", .hikeWithPreview),
    ("HikeWithNoPreview", .hikeWithNoPreview),
    ("Focus", .focus),
    ("StepHead", .stepHead),
    ("CodeSlot", .codeSlot),
    ("PreviewSlot", .previewSlot) ]

/-- Registry lookup: the renderer registered for a tag, if any. -/
def lookupTag : List (String × Renderer) → String → Option Renderer
  | [], _ => none
  | (k, r) :: rest, tag => if k = tag then some r else lookupTag rest tag

/-- Look a tag up in the exported `components` registry. -/
def lookupComponent (tag : String) : Option Renderer :=
  lookupTag components tag

/-- A registered renderer produces the element referencing the
corresponding component (the custom renderer's element in the tree). -/
def applyRenderer (r : Renderer) (attrs : JsObj) (children : List Markup) : Markup :=
  match r with
  | .codeBlock => .elem "CodeBlock" attrs children
  | .customLinkWithFocus => .elem "CustomLink" attrs children
  | .hike => .elem "Hike" attrs children
  | .hikeWithPreview => .elem "HikeWithPreview" attrs children
  | .hikeWithNoPreview => .elem "HikeWithNoPreview" attrs children
  | .focus => .elem "Focus" attrs children
  | .stepHead => .elem "StepHead" attrs children
  | .codeSlot => .elem "CodeSlot" attrs children
  | .previewSlot => .elem "PreviewSlot" attrs children

/-- MDX tag rendering: a tag with a registered renderer uses it; any
other tag falls back to the default HTML element with the same tag,
attributes and children (MDX's default element handling). -/
def renderMdxTag (tag : String) (attrs : JsObj) (children : List Markup) : Markup :=
  match lookupComponent tag with
  | some r => applyRenderer r attrs children
  | none => .elem tag attrs children

/-! ### Content files and the loader -/

/-- The YAML front matter of a content file, after parsing: each field is
present (`some`, with the unescaped scalar value) or absent (`none`). -/
structure FrontMatter where
  title : Option String
  excerpt : Option String
  coverImage : Option String
  date : Option String
  authorName : Option String
  authorPicture : Option String
  ogImageUrl : Option String
deriving DecidableEq

/-- A loaded Post: required fields populated, plus the slug derived from
the filename. -/
structure Post where
  title : String
  excerpt : String
  date : String
  coverImage : Option String
  slug : String
deriving DecidableEq

/-- Modelled from the spec: the front-matter validator of the content
loader, which is not under src/ (the loader lives in the surrounding
framework glue).  Spec §3/§8: "every Post must have a title, excerpt,
and date" and "an empty title never passes validation"; required fields
are a non-empty title, a non-empty excerpt, and a date. -/
def validFrontMatter (fm : FrontMatter) : Bool :=
  fm.title.getD "" != "" && fm.excerpt.getD "" != "" && fm.date.isSome

/-- Modelled from the spec: the content loader, which is not under src/.
Spec §7: malformed front matter (missing required field) "fail[s] the
build for that file rather than render a partial Post, surfaced as a
build-time error listing the offending file path"; otherwise the parsed
front matter yields a Post with all required fields populated. -/
def loadPost (path : String) (slug : String) (fm : FrontMatter) : Except String Post :=
  if validFrontMatter fm then
    { title := fm.title.getD "",
      excerpt := fm.excerpt.getD "",
      date := fm.date.getD "",
      coverImage := fm.coverImage,
      slug := slug } |> Except.ok
  else
    Except.error ("Malformed front matter in " ++ path)

/-- Whether a load produced a Post. -/
def loadedPost : Except String Post → Bool
  | .ok _ => true
  | .error _ => false

/-- src/posts/fp.md lines 1-6: its front matter. -/
def fpFrontMatter : FrontMatter :=
  { title := some "FP in Plain English: How Composition & Currying Work",
    excerpt := some "Functional programming is a cool programming style with a lot of neat benefits, but it's also poorly explained and rarely understood. It's mainly because of the lack of intuition in math language. People can't understand you if you sound alien. In this series of posts, I'm going to shortly explain to you some FP concepts in plain and simple, day-to-day English. Hope you find this helpful.",
    coverImage := some "/assets/blog/fp/cover.jpg",
    date := some "2021-04-09",
    authorName := none,
    authorPicture := none,
    ogImageUrl := none }

/-- src/posts/monad.md lines 1-6: its front matter (the YAML
single-quoted scalar escape `you''d` unescapes to an apostrophe). -/
def monadFrontMatter : FrontMatter :=
  { title := some "How to Build a Mini IO Monad",
    excerpt := some "Instinctively, when we look at a difficult concept for the first time, that ONE question that pops into our minds is usually \"what is it\". Because asking \"what\" is such a valuable human nature that helps us protect ourselves from our natural enemy in the old days. And it can be effective if we already know what we could be dealing with. Lions, tigers, or cute puppies. But if this unfamiliar concept is deeper than you thought it would be, you'd better switch your tactics and asking \"how does it work\", more close to our instincts, \"what can it do\" or \"what can it be used for\". By asking the right question, we can just discover the concept ourselves.",
    coverImage := some "/assets/blog/monad/cover.jpg",
    date := some "2021-04-25",
    authorName := none,
    authorPicture := none,
    ogImageUrl := none }

/-- src/posts/react.md lines 1-6: its front matter. -/
def reactFrontMatter : FrontMatter :=
  { title := some "How to Build a Mini React: From JSX Element to useState",
    excerpt := some "\"What I cannot create, I do not understand.\" - Richard Feynman",
    coverImage := some "/assets/blog/react/cover.jpg",
    date := some "2022-03-27",
    authorName := none,
    authorPicture := none,
    ogImageUrl := none }

/-- src/posts/react-performance-recipes.md lines 1-11: its front
matter. -/
def reactPerformanceRecipesFrontMatter : FrontMatter :=
  { title := some "React Performance Recipes",
    excerpt := some "Performance optimization can be daunting, but there are still more solutions than problems. In this post, I talked about how to tackle common performance issues when developing with React. Get a solution for every React performance problem you might encounter.",
    coverImage := some "/assets/blog/react-po/cover.jpg",
    date := some "2022-01-05",
    authorName := some "Hao Jiang",
    authorPicture := some "/assets/blog/authors/hao.png",
    ogImageUrl := some "/assets/blog/react-po/cover.jpg" }

/-- src/posts/service-worker.md lines 1-5: its front matter (no cover
image, no author). -/
def serviceWorkerFrontMatter : FrontMatter :=
  { title := some "Service Worker Explained",
    excerpt := some "Websites are by default fragile and brittle, as they are always failing because of slow connections, server downtime and simply going offline. However, service workers might be a good way to help the web have an intuitive and empathetic experience for the user.",
    coverImage := none,
    date := some "2022-03-23",
    authorName := none,
    authorPicture := none,
    ogImageUrl := none }

/-- The repository's content set: path and parsed front matter of each
content file under src/posts. -/
def contentFiles : List (String × FrontMatter) :=
  [ ("src/posts/fp.md", fpFrontMatter),
    ("src/posts/monad.md", monadFrontMatter),
    ("src/posts/react.md", reactFrontMatter),
    ("src/posts/react-performance-recipes.md", reactPerformanceRecipesFrontMatter),
    ("src/posts/service-worker.md", serviceWorkerFrontMatter) ]

/-! ### Helper lemmas -/

/-- Object spread: in `a ++ b` (the object `{...a, ...b}`) a key takes
`b`'s value when `b` has the key, else `a`'s. -/
theorem getKey_append (a b : JsObj) (k : String) :
    getKey (a ++ b) k =
      match getKey b k with
      | some v => some v
      | none => getKey a k := by
  induction a with
  | nil => cases h : getKey b k <;> simp [getKey, h]
  | cons hd tl ih =>
    obtain ⟨k0, v0⟩ := hd
    simp only [List.cons_append, getKey, List.append_eq]
    rw [ih]
    cases h : getKey b k <;> cases h2 : getKey tl k <;> simp

/-- A tag that is not among an association list's keys has no entry. -/
theorem lookupTag_eq_none (l : List (String × Renderer)) (tag : String)
    (h : tag ∉ l.map Prod.fst) : lookupTag l tag = none := by
  induction l with
  | nil => rfl
  | cons hd tl ih =>
    simp only [List.map, List.mem_cons] at h
    push_neg at h
    simp [lookupTag, Ne.symm h.1, ih h.2]

/-! ### The claims -/

/-- C1: for every slug string s (whatever the other props), the markup
PostPreview renders contains exactly one post link, and its target path
(the `as` prop of the `Link`, the path the browser navigates to) is
`/posts/` followed by s; in particular with title="Sample" and
slug="sample" the link's target path is `/posts/sample`. -/
theorem c1_postPreview_single_link_target :
    (∀ (s : String) (t d e : Option String) (a : JsVal),
      linkTargets (PostPreview ⟨t, d, e, a, some s⟩) = ["/posts/" ++ s]) ∧
    linkTargets (PostPreview ⟨some "Sample", none, none, .undefined, some "sample"⟩)
      = ["/posts/sample"] := by
  constructor
  · intro s t d e a
    cases t <;> cases e <;>
      simp [PostPreview, linkTargets, linkTargetsList, getKey, jsxText, jsTemplate]
  · simp [PostPreview, linkTargets, linkTargetsList, getKey, jsxText, jsTemplate]

/-- C2: a content file whose front matter misses a required field
(title, excerpt or date) makes the loader report a validation error
naming the offending file path, and no Post object is produced. -/
theorem c2_loader_missing_field_fails (path slug : String) (fm : FrontMatter)
    (h : fm.title = none ∨ fm.excerpt = none ∨ fm.date = none) :
    loadPost path slug fm = .error ("Malformed front matter in " ++ path) ∧
    loadedPost (loadPost path slug fm) = false := by
  have hv : validFrontMatter fm = false := by
    rcases h with h | h | h <;> simp [validFrontMatter, h]
  simp [loadPost, hv, loadedPost]

/-- C2 witness: a concrete file missing its `date` field is refused. -/
theorem c2_loader_missing_field_fails_witness :
    loadPost "src/posts/broken.md" "broken"
        ⟨some "Broken", some "An excerpt.", none, none, none, none, none⟩
      = .error ("Malformed front matter in " ++ "src/posts/broken.md") ∧
    loadedPost (loadPost "src/posts/broken.md" "broken"
        ⟨some "Broken", some "An excerpt.", none, none, none, none, none⟩) = false :=
  c2_loader_missing_field_fails "src/posts/broken.md" "broken"
    ⟨some "Broken", some "An excerpt.", none, none, none, none, none⟩
    (Or.inr (Or.inr rfl))

/-- C3: the registry's keys are exactly pre, a, Hike, HikeWithPreview,
HikeWithNoPreview, Focus, StepHead, CodeSlot, PreviewSlot; any other tag
finds no custom renderer and is rendered as the default HTML element
with the same tag, attributes and children (rendering is total, so it
never throws). -/
theorem c3_unmapped_tag_default_render :
    components.map Prod.fst =
      ["pre", "a", "Hike", "HikeWithPreview", "HikeWithNoPreview",
       "Focus", "StepHead", "CodeSlot", "PreviewSlot"] ∧
    ∀ tag, tag ∉ components.map Prod.fst →
      lookupComponent tag = none ∧
      ∀ attrs children, renderMdxTag tag attrs children = .elem tag attrs children := by
  refine ⟨rfl, fun tag h => ?_⟩
  have hl : lookupComponent tag = none := lookupTag_eq_none components tag h
  exact ⟨hl, fun attrs children => by simp [renderMdxTag, hl]⟩

/-- C3 witness: the unregistered tag "blockquote" falls back to the
default HTML element. -/
theorem c3_unmapped_tag_default_render_witness :
    "blockquote" ∉ components.map Prod.fst ∧
    (lookupComponent "blockquote" = none ∧
      ∀ attrs children,
        renderMdxTag "blockquote" attrs children = .elem "blockquote" attrs children) :=
  ⟨by decide, c3_unmapped_tag_default_render.2 "blockquote" (by decide)⟩

/-- C4: for every caller-supplied config object c, Hike delegates with
the configuration `{...defaultConfig, ...c}`: key by key, c's value when
c has the key, else the default; in particular when c omits `noPreview`
the delegated value is `false`, and when c omits `defaultFileName` it is
`"App.js"`. -/
theorem c4_hike_config_default_merge (p : HikeProps) (c : JsObj)
    (h : p.config = some c) :
    (∀ k, getKey (Hike p).config k =
      match getKey c k with
      | some v => some v
      | none => getKey defaultConfig k) ∧
    (getKey c "noPreview" = none →
      getKey (Hike p).config "noPreview" = some (JsVal.bool false)) ∧
    (getKey c "defaultFileName" = none →
      getKey (Hike p).config "defaultFileName" = some (JsVal.str "App.js")) := by
  have hc : (Hike p).config = defaultConfig ++ c := by
    simp [Hike, h, spreadOpt]
  refine ⟨fun k => by rw [hc, getKey_append], ?_, ?_⟩
  · intro hk
    rw [hc, getKey_append, hk]
    rfl
  · intro hk
    rw [hc, getKey_append, hk]
    rfl

/-- C4 witness: a config object carrying only an unrelated key receives
both defaults. -/
theorem c4_hike_config_default_merge_witness :
    (∀ k, getKey (Hike ⟨some [("other", JsVal.str "x")], none, []⟩).config k =
      match getKey [("other", JsVal.str "x")] k with
      | some v => some v
      | none => getKey defaultConfig k) ∧
    (getKey [("other", JsVal.str "x")] "noPreview" = none →
      getKey (Hike ⟨some [("other", JsVal.str "x")], none, []⟩).config "noPreview"
        = some (JsVal.bool false)) ∧
    (getKey [("other", JsVal.str "x")] "defaultFileName" = none →
      getKey (Hike ⟨some [("other", JsVal.str "x")], none, []⟩).config "defaultFileName"
        = some (JsVal.str "App.js")) :=
  c4_hike_config_default_merge ⟨some [("other", JsVal.str "x")], none, []⟩
    [("other", JsVal.str "x")] rfl

/-- C5 counterexample: HikeWithNoPreview does NOT disable the preview
regardless of what the caller passes — in
`<Hike config={{noPreview: true}} {...props} />` the spread comes after
the explicit config, so a caller whose props carry
`config={{noPreview: false}}` delegates with `noPreview = false`, not
`true`. -/
theorem c5_noPreview_override_counterexample :
    ¬ getKey (HikeWithNoPreview
          ⟨some [("noPreview", JsVal.bool false)], none, []⟩).config "noPreview"
        = some (JsVal.bool true) := by
  simp [HikeWithNoPreview, Hike, spreadOpt, defaultConfig, getKey, Option.getD]

/-- C5 (amended): for every props object that does not itself carry a
`config` prop, HikeWithNoPreview delegates with `noPreview = true`. -/
theorem c5_noPreview_when_config_absent (p : HikeProps) (h : p.config = none) :
    getKey (HikeWithNoPreview p).config "noPreview" = some (JsVal.bool true) := by
  simp [HikeWithNoPreview, Hike, spreadOpt, h, Option.getD, defaultConfig, getKey]

/-- C5 witness: a caller passing no config gets the preview disabled. -/
theorem c5_noPreview_when_config_absent_witness :
    getKey (HikeWithNoPreview ⟨none, none, []⟩).config "noPreview"
      = some (JsVal.bool true) :=
  c5_noPreview_when_config_absent ⟨none, none, []⟩ rfl

/-- C6: rendering is deterministic — two runs of the presentational
components on equal Post data serialize to byte-identical markup (the
components are pure functions of their props, with no state). -/
theorem c6_rendering_deterministic (p q : PostPreviewProps) (h : p = q) :
    renderMarkup (PostPreview p) = renderMarkup (PostPreview q) ∧
    renderMarkup Intro = renderMarkup Intro :=
  ⟨by rw [h], rfl⟩

/-- C6 witness: two runs on the same sample props agree. -/
theorem c6_rendering_deterministic_witness :
    renderMarkup (PostPreview
        ⟨some "Sample", some "2022-03-23", some "An excerpt.", .undefined, some "sample"⟩) =
      renderMarkup (PostPreview
        ⟨some "Sample", some "2022-03-23", some "An excerpt.", .undefined, some "sample"⟩) ∧
    renderMarkup Intro = renderMarkup Intro :=
  c6_rendering_deterministic
    ⟨some "Sample", some "2022-03-23", some "An excerpt.", .undefined, some "sample"⟩
    ⟨some "Sample", some "2022-03-23", some "An excerpt.", .undefined, some "sample"⟩
    rfl

/-- C7: with any named prop missing, PostPreview still produces the
preview block (the function is total, so rendering cannot throw), and a
missing field contributes only empty text: the text content is exactly
the present title followed by the present excerpt, a missing one
contributing "". -/
theorem c7_missing_fields_still_render (p : PostPreviewProps)
    (_h : p.title = none ∨ p.date = none ∨ p.excerpt = none ∨ p.slug = none) :
    previewBlockShape (PostPreview p) = true ∧
    textContent (PostPreview p) = p.title.getD "" ++ p.excerpt.getD "" := by
  obtain ⟨t, d, e, a, s⟩ := p
  refine ⟨rfl, ?_⟩
  cases t <;> cases e <;>
    simp [PostPreview, textContent, textContentList, jsxText, Option.getD]

/-- C7 witness: all props missing still renders the preview block with
empty text. -/
theorem c7_missing_fields_still_render_witness :
    previewBlockShape (PostPreview ⟨none, none, none, .undefined, none⟩) = true ∧
    textContent (PostPreview ⟨none, none, none, .undefined, none⟩) =
      Option.getD none "" ++ Option.getD none "" :=
  c7_missing_fields_still_render ⟨none, none, none, .undefined, none⟩ (Or.inl rfl)

/-- C8: every content file in the repository's content set has a
non-empty title, a non-empty excerpt and a date, and an empty title
never passes validation. -/
theorem c8_content_required_fields :
    (∀ e ∈ contentFiles, validFrontMatter e.2 = true) ∧
    (∀ fm : FrontMatter, fm.title = some "" → validFrontMatter fm = false) := by
  constructor
  · decide
  · intro fm h
    simp [validFrontMatter, h]

/-- C8 witness: fp.md passes validation; an empty title fails it. -/
theorem c8_content_required_fields_witness :
    validFrontMatter fpFrontMatter = true ∧
    validFrontMatter ⟨some "", some "x", none, some "2020-01-01", none, none, none⟩ = false :=
  ⟨c8_content_required_fields.1 ("src/posts/fp.md", fpFrontMatter)
      (by simp [contentFiles]),
    c8_content_required_fields.2
      ⟨some "", some "x", none, some "2020-01-01", none, none, none⟩ rfl⟩

/-- C9: HikeWithPreview is extensionally equal to Hike — it forwards
every prop unchanged and adds no configuration, so it delegates exactly
what Hike delegates. -/
theorem c9_hikeWithPreview_eq_hike (p : HikeProps) :
    HikeWithPreview p = Hike p := rfl

/-- C10: PostPreview's output does not depend on the author prop: two
inputs agreeing on title, date, excerpt and slug render identically
whatever their authors, and no Avatar element is ever rendered (the
Avatar line is commented out in the source). -/
theorem c10_postPreview_author_independent (p q : PostPreviewProps)
    (h1 : p.title = q.title) (h2 : p.date = q.date)
    (h3 : p.excerpt = q.excerpt) (h4 : p.slug = q.slug) :
    PostPreview p = PostPreview q ∧
    containsTag "Avatar" (PostPreview p) = false := by
  obtain ⟨t, d, e, a, s⟩ := p
  obtain ⟨t', d', e', a', s'⟩ := q
  simp only at h1 h2 h3 h4
  subst h1 h2 h3 h4
  refine ⟨rfl, ?_⟩
  cases t <;> cases e <;>
    simp [PostPreview, containsTag, containsTagList, jsxText]

/-- C10 witness: two props objects with different authors (an object
and null) render the same markup, with no Avatar element. -/
theorem c10_postPreview_author_independent_witness :
    PostPreview ⟨some "T", some "2022-01-05", some "E",
        .obj [("name", JsVal.str "Hao Jiang"), ("picture", JsVal.str "/assets/blog/authors/hao.png")],
        some "t"⟩ =
      PostPreview ⟨some "T", some "2022-01-05", some "E", .null, some "t"⟩ ∧
    containsTag "Avatar" (PostPreview ⟨some "T", some "2022-01-05", some "E",
        .obj [("name", JsVal.str "Hao Jiang"), ("picture", JsVal.str "/assets/blog/authors/hao.png")],
        some "t"⟩) = false :=
  c10_postPreview_author_independent
    ⟨some "T", some "2022-01-05", some "E",
      .obj [("name", JsVal.str "Hao Jiang"), ("picture", JsVal.str "/assets/blog/authors/hao.png")],
      some "t"⟩
    ⟨some "T", some "2022-01-05", some "E", .null, some "t"⟩
    rfl rfl rfl rfl

end Blog
